import Mathlib

/-!
# rpc-go client connection broker (`rpc/client_rpc.go`)

A shallow embedding of `DialService`, `makeDialOption`, `dialWithConsul` and
`dialWithLocal`, followed by the properties proved about them.

* Go pointers are `Option` values (`none` is the nil pointer); a Go result pair
  `(conn, err)` is a Lean pair of two `Option`s.
* The package-level map `pools` and the calls made to the outside world are
  threaded through the functions as an explicit `State`.
* `time.Duration` is an `int64`; its arithmetic wraps modulo `2^64`.
* Constants, types and helpers of the package that live in other files
  (`protoTypeRpc`, `callTypeLocal`, `callTypeConsul`, the two error values,
  `getClientConfig`, `generateSchema`, `endpointByBalancer`, `GlobalConf`) and
  the transport `grpc.DialContext` are parameters (`Consts`, `Env`).
-/

namespace Rpc

/-! ## Durations (`time.Duration`, an `int64` count of nanoseconds) -/

/-- Two's-complement wrap of an integer into the `int64` range. -/
def wrapInt64 (x : Int) : Int := (x + 2 ^ 63) % 2 ^ 64 - 2 ^ 63

/-- The constant `time.Millisecond`, in nanoseconds. -/
def Millisecond : Int := 1000000

/-- The conversion `time.Duration(x)` of an integer value `x`. -/
def toDuration (x : Int) : Int := wrapInt64 x

/-- The product `a * b` of two `time.Duration` values (`int64` multiplication). -/
def durationMul (a b : Int) : Int := wrapInt64 (a * b)

/-! ## Values of the libraries the package calls -/

/-- A Go `error` value, with the text its `Error()` method returns. -/
structure GoError where
  msg : String
deriving DecidableEq, Repr

/-- The object a non-nil `*grpc.ClientConn` points to, named by an identifier:
two pointers are the same pointer when the identifiers agree. -/
structure ClientConn where
  id : Nat
deriving DecidableEq, Repr

/-- A `context.Context`: some context of the caller, or one derived from a parent
by `context.WithTimeout`. -/
inductive Context where
  | caller (id : Nat)
  | WithTimeout (parent : Context) (timeout : Int)
deriving DecidableEq, Repr

/-- A `grpc_retry.CallOption`, by the constructor function that made it. -/
inductive CallOption where
  | WithMax (maxRetries : Nat)
  | WithPerRetryTimeout (timeout : Int)
deriving DecidableEq, Repr

/-- The two settings of `grpc_retry`'s option record that the call options above write. -/
structure retryOptions where
  max : Nat
  perCallTimeout : Int
deriving DecidableEq, Repr

/-- The record `grpc_retry` starts from: retries disabled, no per-call timeout. -/
def defaultOptions : retryOptions := { max := 0, perCallTimeout := 0 }

/-- What one `grpc_retry.CallOption` does to the option record. -/
def CallOption.applyTo : CallOption → retryOptions → retryOptions
  | .WithMax n, o => { o with max := n }
  | .WithPerRetryTimeout t, o => { o with perCallTimeout := t }

/-- The record `grpc_retry` computes from its options: each is applied in turn. -/
def reuseOrNewWithCallOptions (o : retryOptions) (opts : List CallOption) : retryOptions :=
  opts.foldl (fun acc c => c.applyTo acc) o

/-- A `grpc.UnaryClientInterceptor`, by the expression that produced it. -/
inductive UnaryClientInterceptor where
  /-- The value `grpc_prometheus.UnaryClientInterceptor`. -/
  | prometheus
  /-- The value `grpc_opentracing.UnaryClientInterceptor()`. -/
  | opentracing
  /-- The value `grpc_retry.UnaryClientInterceptor(opts...)`. -/
  | retry (opts : List CallOption)
deriving DecidableEq, Repr

/-- A `grpc.StreamClientInterceptor`, by the expression that produced it. -/
inductive StreamClientInterceptor where
  /-- The value `grpc_prometheus.StreamClientInterceptor`. -/
  | prometheus
  /-- The value `grpc_opentracing.StreamClientInterceptor()`. -/
  | opentracing
  /-- The value `grpc_retry.StreamClientInterceptor(opts...)`. -/
  | retry (opts : List CallOption)
deriving DecidableEq, Repr

/-- A `grpc.DialOption`, by the constructor function that made it. -/
inductive DialOption where
  | WithChainStreamInterceptor (interceptors : List StreamClientInterceptor)
  | WithChainUnaryInterceptor (interceptors : List UnaryClientInterceptor)
  | WithStreamInterceptor (f : StreamClientInterceptor)
  | WithUnaryInterceptor (f : UnaryClientInterceptor)
  | WithInsecure
deriving DecidableEq, Repr

/-! ## Configuration -/

/-- The fields of `clientConfig` that `client_rpc.go` reads. `PT` and `CT` are the
types of the protocol kind and of the call type. -/
structure clientConfig (PT CT : Type) where
  ServiceName : String
  ProtoType : PT
  CallType : CT
  Timeout : Int
  RetryTimes : Nat
  RetryTimeout : Int
deriving DecidableEq, Repr

/-- The package-level constants and error values `client_rpc.go` refers to. -/
structure Consts (PT CT : Type) where
  protoTypeRpc : PT
  callTypeLocal : CT
  callTypeConsul : CT
  ServiceConfigNotFound : GoError
  ServiceConfigInvalidProto : GoError

/-- A feature switch of `GlobalConf`. -/
structure Toggle where
  Enabled : Bool
deriving DecidableEq, Repr

/-- The part of the process-wide `GlobalConf` that `makeDialOption` reads. -/
structure GlobalConfig where
  Metrics : Toggle
  Trace : Toggle
deriving DecidableEq, Repr

/-- The collaborators of `client_rpc.go`, as they answer during one call. -/
structure Env (PT CT : Type) where
  /-- The global `GlobalConf`. -/
  GlobalConf : GlobalConfig
  /-- The lookup `getClientConfig(serviceName)`; `none` is the nil pointer. -/
  getClientConfig : String → Option (clientConfig PT CT)
  /-- The method `cfg.endpointByBalancer()`. -/
  endpointByBalancer : clientConfig PT CT → String
  /-- The registration `generateSchema(serviceName)`, a `(string, error)` pair. -/
  generateSchema : String → String × Option GoError
  /-- The transport dial `grpc.DialContext(ctx, target, opts...)`. -/
  DialContext : Context → String → List DialOption → Option ClientConn × Option GoError

/-! ## State: the cache and the record of outside calls -/

/-- The map `pools`: `none` for a key that is absent, `some p` for a key bound to
the pointer `p` (which may itself be nil). -/
abbrev Pools := String → Option (Option ClientConn)

/-- The empty map made by `init`. -/
def Pools.empty : Pools := fun _ => none

/-- The read `pools[k]`: the nil pointer for an absent key. -/
def Pools.get (m : Pools) (k : String) : Option ClientConn := (m k).join

/-- The write `pools[k] = v`. -/
def Pools.set (m : Pools) (k : String) (v : Option ClientConn) : Pools :=
  fun k' => if k' = k then some v else m k'

/-- What a call does that is visible outside it, in the order it happens. The
first two record that a dial strategy was entered, with its arguments. -/
inductive Event (PT CT : Type) where
  | dialWithLocal (cfg : clientConfig PT CT) (opts : List DialOption)
  | dialWithConsul (cfg : clientConfig PT CT) (opts : List DialOption)
  | generateSchema (serviceName : String)
  | DialContext (ctx : Context) (target : String) (opts : List DialOption)
  | Errorf (msg : String)
  | cancel (ctx : Context)
deriving DecidableEq, Repr

/-- The mutable state of the package together with the record of events so far. -/
structure State (PT CT : Type) where
  pools : Pools
  trace : List (Event PT CT)

/-- Append one event to the record. -/
def State.emit {PT CT : Type} (s : State PT CT) (e : Event PT CT) : State PT CT :=
  { s with trace := s.trace ++ [e] }

/-- The state after `init`, before any call. -/
def State.init (PT CT : Type) : State PT CT := { pools := Pools.empty, trace := [] }

/-- The events recorded in `s1` after those already in `s0`. -/
def State.since {PT CT : Type} (s0 s1 : State PT CT) : List (Event PT CT) :=
  s1.trace.drop s0.trace.length

/-- Whether an event is an entry into `dialWithLocal`. -/
def Event.isDialWithLocal {PT CT : Type} : Event PT CT → Bool
  | .dialWithLocal _ _ => true
  | _ => false

/-- Whether an event is an entry into `dialWithConsul`. -/
def Event.isDialWithConsul {PT CT : Type} : Event PT CT → Bool
  | .dialWithConsul _ _ => true
  | _ => false

/-- Whether an event is a call of `grpc.DialContext`. -/
def Event.isDialContext {PT CT : Type} : Event PT CT → Bool
  | .DialContext _ _ _ => true
  | _ => false

/-! ## The functions of `client_rpc.go` -/

/-- The function `makeDialOption` (lines 57-82). -/
def makeDialOption {PT CT : Type} (GlobalConf : GlobalConfig) (conf : clientConfig PT CT) :
    List DialOption :=
  let streamInterceptorList : List StreamClientInterceptor := []
  let unaryInterceptorList : List UnaryClientInterceptor := []
  let streamInterceptorList :=
    if GlobalConf.Metrics.Enabled then streamInterceptorList ++ [StreamClientInterceptor.prometheus]
    else streamInterceptorList
  let unaryInterceptorList :=
    if GlobalConf.Metrics.Enabled then unaryInterceptorList ++ [UnaryClientInterceptor.prometheus]
    else unaryInterceptorList
  let streamInterceptorList :=
    if GlobalConf.Trace.Enabled then streamInterceptorList ++ [StreamClientInterceptor.opentracing]
    else streamInterceptorList
  let unaryInterceptorList :=
    if GlobalConf.Trace.Enabled then unaryInterceptorList ++ [UnaryClientInterceptor.opentracing]
    else unaryInterceptorList
  let opts : List CallOption :=
    [ CallOption.WithMax conf.RetryTimes,
      CallOption.WithPerRetryTimeout (durationMul (toDuration conf.RetryTimeout) Millisecond) ]
  [ DialOption.WithChainStreamInterceptor streamInterceptorList,
    DialOption.WithChainUnaryInterceptor unaryInterceptorList,
    DialOption.WithStreamInterceptor (StreamClientInterceptor.retry opts),
    DialOption.WithUnaryInterceptor (UnaryClientInterceptor.retry opts),
    DialOption.WithInsecure ]

/-- The function `dialWithConsul` (lines 84-101). -/
def dialWithConsul {PT CT : Type} (env : Env PT CT) (ctx : Context) (cfg : clientConfig PT CT)
    (opts : List DialOption) (s : State PT CT) :
    (Option ClientConn × Option GoError) × State PT CT :=
  let s := s.emit (Event.dialWithConsul cfg opts)
  let s := s.emit (Event.generateSchema cfg.ServiceName)
  match env.generateSchema cfg.ServiceName with
  | (_, some err) =>
    let s := s.emit (Event.Errorf ("dialWithConsul, init consul resolver error: " ++ err.msg))
    ((none, some err), s)
  | (schema, none) =>
    let ctx := Context.WithTimeout ctx (durationMul (toDuration cfg.Timeout) Millisecond)
    let target := schema ++ ":///" ++ cfg.ServiceName
    let s := s.emit (Event.DialContext ctx target opts)
    match env.DialContext ctx target opts with
    | (_, some err) =>
      let s := s.emit (Event.Errorf ("dialWithConsul, did not connect: " ++ err.msg))
      ((none, some err), s.emit (Event.cancel ctx))
    | (conn, none) => ((conn, none), s.emit (Event.cancel ctx))

/-- The function `dialWithLocal` (lines 103-114). -/
def dialWithLocal {PT CT : Type} (env : Env PT CT) (ctx : Context) (cfg : clientConfig PT CT)
    (opts : List DialOption) (s : State PT CT) :
    (Option ClientConn × Option GoError) × State PT CT :=
  let s := s.emit (Event.dialWithLocal cfg opts)
  let ctx := Context.WithTimeout ctx (durationMul (toDuration cfg.Timeout) Millisecond)
  let target := env.endpointByBalancer cfg
  let s := s.emit (Event.DialContext ctx target opts)
  match env.DialContext ctx target opts with
  | (_, some err) =>
    let s := s.emit (Event.Errorf ("dialWithLocal, did not connect: " ++ err.msg))
    ((none, some err), s.emit (Event.cancel ctx))
  | (conn, none) => ((conn, none), s.emit (Event.cancel ctx))

/-- The function `DialService` (lines 23-55). -/
def DialService {PT CT : Type} [DecidableEq PT] [DecidableEq CT] (K : Consts PT CT)
    (env : Env PT CT) (ctx : Context) (serviceName : String) (s : State PT CT) :
    (Option ClientConn × Option GoError) × State PT CT :=
  match env.getClientConfig serviceName with
  | none => ((none, some K.ServiceConfigNotFound), s)
  | some conf =>
    if conf.ProtoType ≠ K.protoTypeRpc then
      ((none, some K.ServiceConfigInvalidProto), s)
    else
      match s.pools.get serviceName with
      | some c => ((some c, none), s)
      | none =>
        let opts := makeDialOption env.GlobalConf conf
        let r :=
          if conf.CallType = K.callTypeLocal then dialWithLocal env ctx conf opts s
          else if conf.CallType = K.callTypeConsul then dialWithConsul env ctx conf opts s
          else dialWithLocal env ctx conf opts s
        match r.1.2 with
        | some err => ((none, some err), r.2)
        | none => ((r.1.1, none), { r.2 with pools := r.2.pools.set serviceName r.1.1 })

/-! ## What grpc does with the dial options -/

/-- The fields of grpc's `dialOptions` record that the options of this file write. -/
structure dialOptions where
  unaryInt : Option UnaryClientInterceptor
  streamInt : Option StreamClientInterceptor
  chainUnaryInts : List UnaryClientInterceptor
  chainStreamInts : List StreamClientInterceptor
  insecure : Bool
deriving DecidableEq, Repr

/-- The record before any option is applied. -/
def defaultDialOptions : dialOptions :=
  { unaryInt := none, streamInt := none, chainUnaryInts := [], chainStreamInts := [],
    insecure := false }

/-- What one `grpc.DialOption` does to the record (grpc's `dialoptions.go`):
`WithUnaryInterceptor` and `WithStreamInterceptor` set the single interceptor,
`WithChainUnaryInterceptor` and `WithChainStreamInterceptor` append to the chain. -/
def DialOption.apply : DialOption → dialOptions → dialOptions
  | .WithChainStreamInterceptor l, o => { o with chainStreamInts := o.chainStreamInts ++ l }
  | .WithChainUnaryInterceptor l, o => { o with chainUnaryInts := o.chainUnaryInts ++ l }
  | .WithStreamInterceptor f, o => { o with streamInt := some f }
  | .WithUnaryInterceptor f, o => { o with unaryInt := some f }
  | .WithInsecure, o => { o with insecure := true }

/-- The record grpc's dial builds from `opts...`: each option is applied in turn. -/
def applyDialOptions (opts : List DialOption) : dialOptions :=
  opts.foldl (fun o opt => opt.apply o) defaultDialOptions

/-- The unary chain grpc runs (`chainUnaryClientInterceptors` in grpc's
`clientconn.go`), outermost interceptor first: the interceptor set by
`WithUnaryInterceptor`, when there is one, is put in front of the chained ones,
and each interceptor of the list invokes the next, the last one the real call. -/
def chainUnaryClientInterceptors (o : dialOptions) : List UnaryClientInterceptor :=
  match o.unaryInt with
  | some f => f :: o.chainUnaryInts
  | none => o.chainUnaryInts

/-- The stream chain grpc runs (`chainStreamClientInterceptors`), outermost first. -/
def chainStreamClientInterceptors (o : dialOptions) : List StreamClientInterceptor :=
  match o.streamInt with
  | some f => f :: o.chainStreamInts
  | none => o.chainStreamInts

/-! ## Reading a list of dial options -/

/-- The unary interceptors a list of dial options holds, in the order of the list. -/
def unaryInterceptorsOf : List DialOption → List UnaryClientInterceptor
  | [] => []
  | .WithChainUnaryInterceptor l :: rest => l ++ unaryInterceptorsOf rest
  | .WithUnaryInterceptor f :: rest => f :: unaryInterceptorsOf rest
  | _ :: rest => unaryInterceptorsOf rest

/-- The stream interceptors a list of dial options holds, in the order of the list. -/
def streamInterceptorsOf : List DialOption → List StreamClientInterceptor
  | [] => []
  | .WithChainStreamInterceptor l :: rest => l ++ streamInterceptorsOf rest
  | .WithStreamInterceptor f :: rest => f :: streamInterceptorsOf rest
  | _ :: rest => streamInterceptorsOf rest

/-- Which of the three behaviours an interceptor adds. -/
inductive InterceptorKind where
  | metrics
  | tracing
  | retry
deriving DecidableEq, Repr

/-- The behaviour a unary interceptor adds. -/
def UnaryClientInterceptor.kind : UnaryClientInterceptor → InterceptorKind
  | .prometheus => .metrics
  | .opentracing => .tracing
  | .retry _ => .retry

/-- The behaviour a stream interceptor adds. -/
def StreamClientInterceptor.kind : StreamClientInterceptor → InterceptorKind
  | .prometheus => .metrics
  | .opentracing => .tracing
  | .retry _ => .retry

/-- The settings a unary retry interceptor runs with; `none` for the other interceptors. -/
def UnaryClientInterceptor.retrySettings : UnaryClientInterceptor → Option retryOptions
  | .retry opts => some (reuseOrNewWithCallOptions defaultOptions opts)
  | _ => none

/-- The settings a stream retry interceptor runs with; `none` for the other interceptors. -/
def StreamClientInterceptor.retrySettings : StreamClientInterceptor → Option retryOptions
  | .retry opts => some (reuseOrNewWithCallOptions defaultOptions opts)
  | _ => none

/-- The tail of `DialService` after the strategy returned `r` (lines 50-54): an
error is passed on, a connection is stored under `serviceName` and returned. -/
def storeDialed {PT CT : Type} (serviceName : String)
    (r : (Option ClientConn × Option GoError) × State PT CT) :
    (Option ClientConn × Option GoError) × State PT CT :=
  match r.1.2 with
  | some err => ((none, some err), r.2)
  | none => ((r.1.1, none), { r.2 with pools := r.2.pools.set serviceName r.1.1 })

/-! ## A concrete deployment, used to instantiate the theorems -/

/-- Constants of a deployment whose protocol kinds and call types are strings. -/
def exConsts : Consts String String :=
  { protoTypeRpc := "rpc", callTypeLocal := "local", callTypeConsul := "consul",
    ServiceConfigNotFound := { msg := "service config not found" },
    ServiceConfigInvalidProto := { msg := "service config invalid proto" } }

/-- A valid config dialed by the local strategy; its endpoint accepts connections. -/
def exUserConf : clientConfig String String :=
  { ServiceName := "user", ProtoType := "rpc", CallType := "local", Timeout := 1000,
    RetryTimes := 3, RetryTimeout := 500 }

/-- A valid config dialed by the local strategy; its endpoint refuses connections. -/
def exDownConf : clientConfig String String :=
  { ServiceName := "down", ProtoType := "rpc", CallType := "local", Timeout := 1000,
    RetryTimes := 3, RetryTimeout := 500 }

/-- A valid config dialed by the consul strategy; its scheme cannot be registered. -/
def exOrderConf : clientConfig String String :=
  { ServiceName := "order", ProtoType := "rpc", CallType := "consul", Timeout := 2000,
    RetryTimes := 2, RetryTimeout := 250 }

/-- A valid config dialed by the consul strategy; registration and dial succeed. -/
def exStockConf : clientConfig String String :=
  { ServiceName := "stock", ProtoType := "rpc", CallType := "consul", Timeout := 2000,
    RetryTimes := 2, RetryTimeout := 250 }

/-- A config of another protocol kind. -/
def exWebConf : clientConfig String String :=
  { ServiceName := "web", ProtoType := "http", CallType := "local", Timeout := 1000,
    RetryTimes := 0, RetryTimeout := 0 }

/-- A valid config whose call type is neither of the two known ones. -/
def exLegacyConf : clientConfig String String :=
  { ServiceName := "user", ProtoType := "rpc", CallType := "direct", Timeout := 1000,
    RetryTimes := 3, RetryTimeout := 500 }

/-- The collaborators of the deployment: metrics on, tracing off. -/
def exEnv : Env String String :=
  { GlobalConf := { Metrics := { Enabled := true }, Trace := { Enabled := false } },
    getClientConfig := fun n =>
      if n = "user" then some exUserConf
      else if n = "down" then some exDownConf
      else if n = "order" then some exOrderConf
      else if n = "stock" then some exStockConf
      else if n = "web" then some exWebConf
      else if n = "legacy" then some exLegacyConf
      else none,
    endpointByBalancer := fun cfg =>
      if cfg.ServiceName = "user" then "127.0.0.1:9000" else "127.0.0.1:1",
    generateSchema := fun n =>
      if n = "order" then ("", some { msg := "consul agent unreachable" }) else ("consul", none),
    DialContext := fun _ target _ =>
      if target = "127.0.0.1:9000" then (some { id := 1 }, none)
      else if target = "consul:///stock" then (some { id := 2 }, none)
      else (some { id := 9 }, some { msg := "connection refused" }) }

/-- The deployment with `exUserConf`, which is `exLegacyConf` with the call type
set to `callTypeLocal`, registered under "legacy". -/
def exEnvLocal : Env String String :=
  { exEnv with getClientConfig := fun n => if n = "legacy" then some exUserConf else exEnv.getClientConfig n }

/-- A state whose cache already holds a connection for every name. -/
def exFullState : State String String :=
  { pools := fun _ => some (some { id := 7 }), trace := [] }

/-- A state whose cache holds a connection for "user" and for no other name. -/
def exUserState : State String String :=
  { pools := Pools.set Pools.empty "user" (some { id := 1 }), trace := [] }

/-- Both feature switches on. -/
def exAllOn : GlobalConfig := { Metrics := { Enabled := true }, Trace := { Enabled := true } }

/-- A context of the caller. -/
def exCtx : Context := Context.caller 0

/-! ## Basic facts -/

theorem wrapInt64_mul_wrap (x : Int) :
    wrapInt64 (wrapInt64 x * 1000000) = wrapInt64 (x * 1000000) := by
  unfold wrapInt64
  norm_num
  omega

theorem retryTimeout_duration (x : Int) :
    durationMul (toDuration x) Millisecond = wrapInt64 (x * 1000000) := by
  unfold durationMul toDuration Millisecond
  exact wrapInt64_mul_wrap x

theorem wrapInt64_of_inRange (x : Int) (h1 : -(2 ^ 63) ≤ x) (h2 : x < 2 ^ 63) :
    wrapInt64 x = x := by
  unfold wrapInt64
  norm_num at h1 h2 ⊢
  omega

theorem State.since_self {PT CT : Type} (s : State PT CT) : State.since s s = [] := by
  simp [State.since]

theorem State.since_append {PT CT : Type} (s t : State PT CT) (l : List (Event PT CT))
    (h : t.trace = s.trace ++ l) : State.since s t = l := by
  simp [State.since, h]

/-! ## The two dial strategies -/

theorem dialWithLocal_pools {PT CT : Type} (env : Env PT CT) (ctx : Context)
    (cfg : clientConfig PT CT) (opts : List DialOption) (s : State PT CT) :
    (dialWithLocal env ctx cfg opts s).2.pools = s.pools := by
  unfold dialWithLocal
  rcases h : env.DialContext (Context.WithTimeout ctx (durationMul (toDuration cfg.Timeout) Millisecond))
    (env.endpointByBalancer cfg) opts with ⟨conn, _ | err⟩ <;> simp [h, State.emit]

theorem dialWithConsul_pools {PT CT : Type} (env : Env PT CT) (ctx : Context)
    (cfg : clientConfig PT CT) (opts : List DialOption) (s : State PT CT) :
    (dialWithConsul env ctx cfg opts s).2.pools = s.pools := by
  unfold dialWithConsul
  rcases hg : env.generateSchema cfg.ServiceName with ⟨schema, _ | err⟩
  · rcases h : env.DialContext
      (Context.WithTimeout ctx (durationMul (toDuration cfg.Timeout) Millisecond))
      (schema ++ ":///" ++ cfg.ServiceName) opts with ⟨conn, _ | err⟩ <;>
      simp [hg, h, State.emit]
  · simp [hg, State.emit]

theorem dialWithLocal_ok {PT CT : Type} (env : Env PT CT) (ctx : Context)
    (cfg : clientConfig PT CT) (opts : List DialOption) (s : State PT CT)
    (conn : Option ClientConn)
    (h : env.DialContext (Context.WithTimeout ctx (durationMul (toDuration cfg.Timeout) Millisecond))
      (env.endpointByBalancer cfg) opts = (conn, none)) :
    dialWithLocal env ctx cfg opts s
      = ((conn, none),
         { s with trace := s.trace ++
            [ Event.dialWithLocal cfg opts,
              Event.DialContext
                (Context.WithTimeout ctx (durationMul (toDuration cfg.Timeout) Millisecond))
                (env.endpointByBalancer cfg) opts,
              Event.cancel
                (Context.WithTimeout ctx (durationMul (toDuration cfg.Timeout) Millisecond)) ] }) := by
  simp [dialWithLocal, h, State.emit]

theorem dialWithLocal_err {PT CT : Type} (env : Env PT CT) (ctx : Context)
    (cfg : clientConfig PT CT) (opts : List DialOption) (s : State PT CT)
    (conn : Option ClientConn) (err : GoError)
    (h : env.DialContext (Context.WithTimeout ctx (durationMul (toDuration cfg.Timeout) Millisecond))
      (env.endpointByBalancer cfg) opts = (conn, some err)) :
    dialWithLocal env ctx cfg opts s
      = ((none, some err),
         { s with trace := s.trace ++
            [ Event.dialWithLocal cfg opts,
              Event.DialContext
                (Context.WithTimeout ctx (durationMul (toDuration cfg.Timeout) Millisecond))
                (env.endpointByBalancer cfg) opts,
              Event.Errorf ("dialWithLocal, did not connect: " ++ err.msg),
              Event.cancel
                (Context.WithTimeout ctx (durationMul (toDuration cfg.Timeout) Millisecond)) ] }) := by
  simp [dialWithLocal, h, State.emit]

theorem dialWithConsul_schema_err {PT CT : Type} (env : Env PT CT) (ctx : Context)
    (cfg : clientConfig PT CT) (opts : List DialOption) (s : State PT CT)
    (schema : String) (err : GoError)
    (hg : env.generateSchema cfg.ServiceName = (schema, some err)) :
    dialWithConsul env ctx cfg opts s
      = ((none, some err),
         { s with trace := s.trace ++
            [ Event.dialWithConsul cfg opts,
              Event.generateSchema cfg.ServiceName,
              Event.Errorf ("dialWithConsul, init consul resolver error: " ++ err.msg) ] }) := by
  simp [dialWithConsul, hg, State.emit]

theorem dialWithConsul_ok {PT CT : Type} (env : Env PT CT) (ctx : Context)
    (cfg : clientConfig PT CT) (opts : List DialOption) (s : State PT CT)
    (schema : String) (conn : Option ClientConn)
    (hg : env.generateSchema cfg.ServiceName = (schema, none))
    (h : env.DialContext (Context.WithTimeout ctx (durationMul (toDuration cfg.Timeout) Millisecond))
      (schema ++ ":///" ++ cfg.ServiceName) opts = (conn, none)) :
    dialWithConsul env ctx cfg opts s
      = ((conn, none),
         { s with trace := s.trace ++
            [ Event.dialWithConsul cfg opts,
              Event.generateSchema cfg.ServiceName,
              Event.DialContext
                (Context.WithTimeout ctx (durationMul (toDuration cfg.Timeout) Millisecond))
                (schema ++ ":///" ++ cfg.ServiceName) opts,
              Event.cancel
                (Context.WithTimeout ctx (durationMul (toDuration cfg.Timeout) Millisecond)) ] }) := by
  simp [dialWithConsul, hg, h, State.emit]

theorem dialWithConsul_err {PT CT : Type} (env : Env PT CT) (ctx : Context)
    (cfg : clientConfig PT CT) (opts : List DialOption) (s : State PT CT)
    (schema : String) (conn : Option ClientConn) (err : GoError)
    (hg : env.generateSchema cfg.ServiceName = (schema, none))
    (h : env.DialContext (Context.WithTimeout ctx (durationMul (toDuration cfg.Timeout) Millisecond))
      (schema ++ ":///" ++ cfg.ServiceName) opts = (conn, some err)) :
    dialWithConsul env ctx cfg opts s
      = ((none, some err),
         { s with trace := s.trace ++
            [ Event.dialWithConsul cfg opts,
              Event.generateSchema cfg.ServiceName,
              Event.DialContext
                (Context.WithTimeout ctx (durationMul (toDuration cfg.Timeout) Millisecond))
                (schema ++ ":///" ++ cfg.ServiceName) opts,
              Event.Errorf ("dialWithConsul, did not connect: " ++ err.msg),
              Event.cancel
                (Context.WithTimeout ctx (durationMul (toDuration cfg.Timeout) Millisecond)) ] }) := by
  simp [dialWithConsul, hg, h, State.emit]

/-- On a cache miss with a valid config, `DialService` is the strategy chosen by
the `switch` followed by lines 50-54. -/
theorem DialService_miss {PT CT : Type} [DecidableEq PT] [DecidableEq CT]
    (K : Consts PT CT) (env : Env PT CT) (ctx : Context) (serviceName : String)
    (s : State PT CT) (conf : clientConfig PT CT)
    (hconf : env.getClientConfig serviceName = some conf)
    (hproto : conf.ProtoType = K.protoTypeRpc)
    (hmiss : s.pools.get serviceName = none) :
    DialService K env ctx serviceName s
      = storeDialed serviceName
          (if conf.CallType = K.callTypeLocal then
             dialWithLocal env ctx conf (makeDialOption env.GlobalConf conf) s
           else if conf.CallType = K.callTypeConsul then
             dialWithConsul env ctx conf (makeDialOption env.GlobalConf conf) s
           else dialWithLocal env ctx conf (makeDialOption env.GlobalConf conf) s) := by
  simp only [DialService, hconf, hproto, hmiss, storeDialed, ne_eq, not_true_eq_false, if_false]

/-- On a cache hit with a valid config, `DialService` returns the cached pointer
and leaves the state alone. -/
theorem DialService_hit {PT CT : Type} [DecidableEq PT] [DecidableEq CT]
    (K : Consts PT CT) (env : Env PT CT) (ctx : Context) (serviceName : String)
    (s : State PT CT) (conf : clientConfig PT CT) (c : ClientConn)
    (hconf : env.getClientConfig serviceName = some conf)
    (hproto : conf.ProtoType = K.protoTypeRpc)
    (hhit : s.pools.get serviceName = some c) :
    DialService K env ctx serviceName s = ((some c, none), s) := by
  simp only [DialService, hconf, hproto, hhit, ne_eq, not_true_eq_false, if_false]

theorem Pools.get_set_self (m : Pools) (k : String) (v : Option ClientConn) :
    (m.set k v).get k = v := by
  simp [Pools.get, Pools.set]

theorem Pools.set_other (m : Pools) (k k' : String) (v : Option ClientConn) (h : k' ≠ k) :
    (m.set k v) k' = m k' := by
  simp [Pools.set, h]

theorem storeDialed_trace {PT CT : Type} (serviceName : String)
    (r : (Option ClientConn × Option GoError) × State PT CT) :
    (storeDialed serviceName r).2.trace = r.2.trace := by
  unfold storeDialed
  cases r.1.2 <;> rfl

theorem dialWithLocal_cases {PT CT : Type} (env : Env PT CT) (ctx : Context)
    (cfg : clientConfig PT CT) (opts : List DialOption) (s : State PT CT) :
    ∃ rest : List (Event PT CT),
      (dialWithLocal env ctx cfg opts s).2.trace
          = s.trace ++ Event.dialWithLocal cfg opts :: rest
        ∧ rest.countP Event.isDialWithLocal = 0
        ∧ rest.countP Event.isDialWithConsul = 0 := by
  rcases h : env.DialContext
    (Context.WithTimeout ctx (durationMul (toDuration cfg.Timeout) Millisecond))
    (env.endpointByBalancer cfg) opts with ⟨conn, _ | err⟩
  · rw [dialWithLocal_ok env ctx cfg opts s conn h]
    exact ⟨_, rfl, by simp [Event.isDialWithLocal], by simp [Event.isDialWithConsul]⟩
  · rw [dialWithLocal_err env ctx cfg opts s conn err h]
    exact ⟨_, rfl, by simp [Event.isDialWithLocal], by simp [Event.isDialWithConsul]⟩

theorem dialWithConsul_cases {PT CT : Type} (env : Env PT CT) (ctx : Context)
    (cfg : clientConfig PT CT) (opts : List DialOption) (s : State PT CT) :
    ∃ rest : List (Event PT CT),
      (dialWithConsul env ctx cfg opts s).2.trace
          = s.trace ++ Event.dialWithConsul cfg opts :: rest
        ∧ rest.countP Event.isDialWithLocal = 0
        ∧ rest.countP Event.isDialWithConsul = 0 := by
  rcases hg : env.generateSchema cfg.ServiceName with ⟨schema, _ | gerr⟩
  · rcases h : env.DialContext
      (Context.WithTimeout ctx (durationMul (toDuration cfg.Timeout) Millisecond))
      (schema ++ ":///" ++ cfg.ServiceName) opts with ⟨conn, _ | err⟩
    · rw [dialWithConsul_ok env ctx cfg opts s schema conn hg h]
      exact ⟨_, rfl, by simp [Event.isDialWithLocal], by simp [Event.isDialWithConsul]⟩
    · rw [dialWithConsul_err env ctx cfg opts s schema conn err hg h]
      exact ⟨_, rfl, by simp [Event.isDialWithLocal], by simp [Event.isDialWithConsul]⟩
  · rw [dialWithConsul_schema_err env ctx cfg opts s schema gerr hg]
    exact ⟨_, rfl, by simp [Event.isDialWithLocal], by simp [Event.isDialWithConsul]⟩

theorem storeDialed_congr {PT CT : Type} (serviceName : String)
    (r r' : (Option ClientConn × Option GoError) × State PT CT)
    (h1 : r'.1 = r.1) (h2 : r'.2.pools = r.2.pools) :
    (storeDialed serviceName r').1 = (storeDialed serviceName r).1
      ∧ (storeDialed serviceName r').2.pools = (storeDialed serviceName r).2.pools := by
  unfold storeDialed
  rw [h1]
  cases r.1.2 <;> simp [h2]

theorem dialWithLocal_congr {PT CT : Type} (env env' : Env PT CT) (ctx : Context)
    (cfg cfg' : clientConfig PT CT) (opts : List DialOption) (s : State PT CT)
    (hT : cfg'.Timeout = cfg.Timeout)
    (hE : env'.endpointByBalancer cfg' = env.endpointByBalancer cfg)
    (hD : env'.DialContext = env.DialContext) :
    (dialWithLocal env' ctx cfg' opts s).1 = (dialWithLocal env ctx cfg opts s).1
      ∧ (dialWithLocal env' ctx cfg' opts s).2.pools = (dialWithLocal env ctx cfg opts s).2.pools
      ∧ (State.since s (dialWithLocal env' ctx cfg' opts s).2).tail
          = (State.since s (dialWithLocal env ctx cfg opts s).2).tail := by
  rcases h : env.DialContext
    (Context.WithTimeout ctx (durationMul (toDuration cfg.Timeout) Millisecond))
    (env.endpointByBalancer cfg) opts with ⟨conn, _ | err⟩
  · have h' : env'.DialContext
        (Context.WithTimeout ctx (durationMul (toDuration cfg'.Timeout) Millisecond))
        (env'.endpointByBalancer cfg') opts = (conn, none) := by rw [hD, hE, hT, h]
    rw [dialWithLocal_ok env ctx cfg opts s conn h, dialWithLocal_ok env' ctx cfg' opts s conn h']
    simp [State.since, hT, hE]
  · have h' : env'.DialContext
        (Context.WithTimeout ctx (durationMul (toDuration cfg'.Timeout) Millisecond))
        (env'.endpointByBalancer cfg') opts = (conn, some err) := by rw [hD, hE, hT, h]
    rw [dialWithLocal_err env ctx cfg opts s conn err h,
      dialWithLocal_err env' ctx cfg' opts s conn err h']
    simp [State.since, hT, hE]

theorem dialWithLocal_entered {PT CT : Type} (env : Env PT CT) (ctx : Context)
    (cfg : clientConfig PT CT) (opts : List DialOption) (s : State PT CT) (serviceName : String) :
    (State.since s (storeDialed serviceName (dialWithLocal env ctx cfg opts s)).2).head?
        = some (Event.dialWithLocal cfg opts)
      ∧ (State.since s (storeDialed serviceName
          (dialWithLocal env ctx cfg opts s)).2).countP Event.isDialWithLocal = 1
      ∧ (State.since s (storeDialed serviceName
          (dialWithLocal env ctx cfg opts s)).2).countP Event.isDialWithConsul = 0 := by
  obtain ⟨rest, htr, hl, hc⟩ := dialWithLocal_cases env ctx cfg opts s
  have hs : State.since s (storeDialed serviceName (dialWithLocal env ctx cfg opts s)).2
      = Event.dialWithLocal cfg opts :: rest := by
    apply State.since_append
    rw [storeDialed_trace, htr]
  rw [hs]
  simp [List.countP_cons, hl, hc, Event.isDialWithLocal, Event.isDialWithConsul]

theorem dialWithConsul_entered {PT CT : Type} (env : Env PT CT) (ctx : Context)
    (cfg : clientConfig PT CT) (opts : List DialOption) (s : State PT CT) (serviceName : String) :
    (State.since s (storeDialed serviceName (dialWithConsul env ctx cfg opts s)).2).head?
        = some (Event.dialWithConsul cfg opts)
      ∧ (State.since s (storeDialed serviceName
          (dialWithConsul env ctx cfg opts s)).2).countP Event.isDialWithConsul = 1
      ∧ (State.since s (storeDialed serviceName
          (dialWithConsul env ctx cfg opts s)).2).countP Event.isDialWithLocal = 0 := by
  obtain ⟨rest, htr, hl, hc⟩ := dialWithConsul_cases env ctx cfg opts s
  have hs : State.since s (storeDialed serviceName (dialWithConsul env ctx cfg opts s)).2
      = Event.dialWithConsul cfg opts :: rest := by
    apply State.since_append
    rw [storeDialed_trace, htr]
  rw [hs]
  simp [List.countP_cons, hl, hc, Event.isDialWithLocal, Event.isDialWithConsul]

theorem makeDialOption_callType {PT CT : Type} (G : GlobalConfig) (conf : clientConfig PT CT)
    (ct : CT) : makeDialOption G { conf with CallType := ct } = makeDialOption G conf := rfl

/-! ## Rejections before the cache is read -/

/-- C1: when `getClientConfig` returns nil for the service name, `DialService`
returns `(nil, ServiceConfigNotFound)` in every state, also one whose cache holds a
connection for that name; it records no event at all (so neither dial strategy is
entered) and the state, the `pools` map included, is the one it started from. -/
theorem DialService_config_not_found {PT CT : Type} [DecidableEq PT] [DecidableEq CT]
    (K : Consts PT CT) (env : Env PT CT) (ctx : Context) (serviceName : String)
    (s : State PT CT) (hconf : env.getClientConfig serviceName = none) :
    (DialService K env ctx serviceName s).1 = (none, some K.ServiceConfigNotFound)
      ∧ (DialService K env ctx serviceName s).2 = s
      ∧ (DialService K env ctx serviceName s).2.pools = s.pools
      ∧ State.since s (DialService K env ctx serviceName s).2 = [] := by
  have h : DialService K env ctx serviceName s = ((none, some K.ServiceConfigNotFound), s) := by
    simp [DialService, hconf]
  simp [h, State.since_self]

theorem DialService_config_not_found_witness :
    exEnv.getClientConfig "nobody" = none
      ∧ exFullState.pools.get "nobody" = some { id := 7 }
      ∧ (DialService exConsts exEnv exCtx "nobody" exFullState).1
          = (none, some exConsts.ServiceConfigNotFound)
      ∧ (DialService exConsts exEnv exCtx "nobody" exFullState).2.pools = exFullState.pools :=
  have h := DialService_config_not_found exConsts exEnv exCtx "nobody" exFullState (by decide)
  ⟨by decide, rfl, h.1, h.2.2.1⟩

/-- C2: when the config of the service name exists and its `ProtoType` differs from
`protoTypeRpc`, `DialService` returns `(nil, ServiceConfigInvalidProto)` in every
state, also one whose cache holds a connection for that name; it records no event
at all (so neither `dialWithLocal` nor `dialWithConsul` is entered and nothing is
dialed) and the state, the `pools` map included, is the one it started from. -/
theorem DialService_invalid_proto {PT CT : Type} [DecidableEq PT] [DecidableEq CT]
    (K : Consts PT CT) (env : Env PT CT) (ctx : Context) (serviceName : String)
    (s : State PT CT) (conf : clientConfig PT CT)
    (hconf : env.getClientConfig serviceName = some conf)
    (hproto : conf.ProtoType ≠ K.protoTypeRpc) :
    (DialService K env ctx serviceName s).1 = (none, some K.ServiceConfigInvalidProto)
      ∧ (DialService K env ctx serviceName s).2 = s
      ∧ (DialService K env ctx serviceName s).2.pools = s.pools
      ∧ State.since s (DialService K env ctx serviceName s).2 = [] := by
  have h : DialService K env ctx serviceName s
      = ((none, some K.ServiceConfigInvalidProto), s) := by
    simp [DialService, hconf, hproto]
  simp [h, State.since_self]

theorem DialService_invalid_proto_witness :
    exEnv.getClientConfig "web" = some exWebConf
      ∧ exWebConf.ProtoType ≠ exConsts.protoTypeRpc
      ∧ exFullState.pools.get "web" = some { id := 7 }
      ∧ (DialService exConsts exEnv exCtx "web" exFullState).1
          = (none, some exConsts.ServiceConfigInvalidProto)
      ∧ (DialService exConsts exEnv exCtx "web" exFullState).2.pools = exFullState.pools :=
  have h := DialService_invalid_proto exConsts exEnv exCtx "web" exFullState exWebConf
    (by decide) (by decide)
  ⟨by decide, by decide, rfl, h.1, h.2.2.1⟩

/-! ## The cache -/

/-- C3: for a valid config of call type local and a state whose cache has no
connection for the service name, if the dial of the first `DialService` call
succeeds with the non-nil connection `c`, then the first call returns `(c, nil)`,
a second call for the same name (whatever the collaborators then answer, with the
same config registered) returns the same `c` with a nil error, records no event and
leaves the state as the first call left it, and over the two calls `dialWithLocal`
is entered at most once. -/
theorem DialService_twice_local {PT CT : Type} [DecidableEq PT] [DecidableEq CT]
    (K : Consts PT CT) (env₁ env₂ : Env PT CT) (ctx₁ ctx₂ : Context) (serviceName : String)
    (s : State PT CT) (conf : clientConfig PT CT) (c : ClientConn)
    (hconf₁ : env₁.getClientConfig serviceName = some conf)
    (hconf₂ : env₂.getClientConfig serviceName = some conf)
    (hproto : conf.ProtoType = K.protoTypeRpc)
    (hlocal : conf.CallType = K.callTypeLocal)
    (hmiss : s.pools.get serviceName = none)
    (hdial : (dialWithLocal env₁ ctx₁ conf (makeDialOption env₁.GlobalConf conf) s).1
      = (some c, none)) :
    (DialService K env₁ ctx₁ serviceName s).1 = (some c, none)
      ∧ (DialService K env₂ ctx₂ serviceName (DialService K env₁ ctx₁ serviceName s).2).1
          = (some c, none)
      ∧ (DialService K env₂ ctx₂ serviceName (DialService K env₁ ctx₁ serviceName s).2).2
          = (DialService K env₁ ctx₁ serviceName s).2
      ∧ State.since (DialService K env₁ ctx₁ serviceName s).2
          (DialService K env₂ ctx₂ serviceName (DialService K env₁ ctx₁ serviceName s).2).2 = []
      ∧ (State.since s
          (DialService K env₂ ctx₂ serviceName
            (DialService K env₁ ctx₁ serviceName s).2).2).countP Event.isDialWithLocal ≤ 1 := by
  have h₁ := DialService_miss K env₁ ctx₁ serviceName s conf hconf₁ hproto hmiss
  rw [if_pos hlocal] at h₁
  have hfst : (DialService K env₁ ctx₁ serviceName s).1 = (some c, none) := by
    rw [h₁]; simp [storeDialed, hdial]
  have hget : (DialService K env₁ ctx₁ serviceName s).2.pools.get serviceName = some c := by
    rw [h₁]; simp [storeDialed, hdial, Pools.get_set_self]
  have h₂ := DialService_hit K env₂ ctx₂ serviceName (DialService K env₁ ctx₁ serviceName s).2
    conf c hconf₂ hproto hget
  refine ⟨hfst, by rw [h₂], by rw [h₂], by rw [h₂]; exact State.since_self _, ?_⟩
  rw [h₂]
  obtain ⟨rest, htr, hl, _⟩ :=
    dialWithLocal_cases env₁ ctx₁ conf (makeDialOption env₁.GlobalConf conf) s
  have htrace : (DialService K env₁ ctx₁ serviceName s).2.trace
      = s.trace ++ Event.dialWithLocal conf (makeDialOption env₁.GlobalConf conf) :: rest := by
    rw [h₁, storeDialed_trace, htr]
  rw [State.since_append s _ _ htrace]
  simp [List.countP_cons, hl, Event.isDialWithLocal]

theorem DialService_twice_local_witness :
    (DialService exConsts exEnv exCtx "user" (State.init String String)).1
        = (some { id := 1 }, none)
      ∧ (DialService exConsts exEnvLocal (Context.caller 1) "user"
          (DialService exConsts exEnv exCtx "user" (State.init String String)).2).1
        = (some { id := 1 }, none) :=
  have h := DialService_twice_local exConsts exEnv exEnvLocal exCtx (Context.caller 1) "user"
    (State.init String String) exUserConf { id := 1 } (by decide) (by decide) (by decide)
    (by decide) rfl (by decide)
  ⟨h.1, h.2.1⟩

/-- C4: for a valid config and a state whose cache has no connection for the
service name, if the strategy the `switch` selects returns `(c, nil)`, then
`DialService` returns `(c, nil)`, the resulting cache binds the service name to `c`,
and the entry of every other name is what it was before the call. -/
theorem DialService_success_caches {PT CT : Type} [DecidableEq PT] [DecidableEq CT]
    (K : Consts PT CT) (env : Env PT CT) (ctx : Context) (serviceName : String)
    (s : State PT CT) (conf : clientConfig PT CT) (c : Option ClientConn)
    (hconf : env.getClientConfig serviceName = some conf)
    (hproto : conf.ProtoType = K.protoTypeRpc)
    (hmiss : s.pools.get serviceName = none)
    (hdial :
      ((conf.CallType = K.callTypeLocal ∨ conf.CallType ≠ K.callTypeConsul)
        ∧ (dialWithLocal env ctx conf (makeDialOption env.GlobalConf conf) s).1 = (c, none))
      ∨ ((conf.CallType ≠ K.callTypeLocal ∧ conf.CallType = K.callTypeConsul)
        ∧ (dialWithConsul env ctx conf (makeDialOption env.GlobalConf conf) s).1 = (c, none))) :
    (DialService K env ctx serviceName s).1 = (c, none)
      ∧ (DialService K env ctx serviceName s).2.pools serviceName = some c
      ∧ (DialService K env ctx serviceName s).2.pools.get serviceName = c
      ∧ ∀ other : String, other ≠ serviceName →
          (DialService K env ctx serviceName s).2.pools other = s.pools other := by
  have h := DialService_miss K env ctx serviceName s conf hconf hproto hmiss
  rcases hdial with ⟨hsel, hd⟩ | ⟨⟨hnl, hc⟩, hd⟩
  · have hsame : (if conf.CallType = K.callTypeLocal then
          dialWithLocal env ctx conf (makeDialOption env.GlobalConf conf) s
        else if conf.CallType = K.callTypeConsul then
          dialWithConsul env ctx conf (makeDialOption env.GlobalConf conf) s
        else dialWithLocal env ctx conf (makeDialOption env.GlobalConf conf) s)
        = dialWithLocal env ctx conf (makeDialOption env.GlobalConf conf) s := by
      rcases hsel with hl | hnc
      · rw [if_pos hl]
      · by_cases hl : conf.CallType = K.callTypeLocal
        · rw [if_pos hl]
        · rw [if_neg hl, if_neg hnc]
    rw [hsame] at h
    rw [h]
    refine ⟨by simp [storeDialed, hd], by simp [storeDialed, hd, Pools.set],
      by simp [storeDialed, hd, Pools.get_set_self], ?_⟩
    intro other hne
    simp [storeDialed, hd, Pools.set, hne, dialWithLocal_pools]
  · rw [if_neg hnl, if_pos hc] at h
    rw [h]
    refine ⟨by simp [storeDialed, hd], by simp [storeDialed, hd, Pools.set],
      by simp [storeDialed, hd, Pools.get_set_self], ?_⟩
    intro other hne
    simp [storeDialed, hd, Pools.set, hne, dialWithConsul_pools]

theorem DialService_success_caches_witness :
    (DialService exConsts exEnv exCtx "stock" exUserState).1 = (some { id := 2 }, none)
      ∧ (DialService exConsts exEnv exCtx "stock" exUserState).2.pools "stock"
          = some (some { id := 2 })
      ∧ (DialService exConsts exEnv exCtx "stock" exUserState).2.pools "user"
          = exUserState.pools "user" :=
  have h := DialService_success_caches exConsts exEnv exCtx "stock" exUserState exStockConf
    (some { id := 2 }) (by decide) (by decide) (by decide)
    (Or.inr ⟨⟨by decide, by decide⟩, by decide⟩)
  ⟨h.1, h.2.1, h.2.2.2 "user" (by decide)⟩

/-! ## Failures of the dial -/

/-- C5: for a valid config and a state whose cache has no connection for the
service name, if the `grpc.DialContext` call of the strategy the `switch` selects
(that of `dialWithLocal`, or that of `dialWithConsul` once the scheme is
registered) returns the error `e`, then `DialService` returns a nil connection
together with `e`, whatever connection came with the error, and the `pools` map
after the call is the map before it. -/
theorem DialService_dial_failure {PT CT : Type} [DecidableEq PT] [DecidableEq CT]
    (K : Consts PT CT) (env : Env PT CT) (ctx : Context) (serviceName : String)
    (s : State PT CT) (conf : clientConfig PT CT) (conn : Option ClientConn) (e : GoError)
    (hconf : env.getClientConfig serviceName = some conf)
    (hproto : conf.ProtoType = K.protoTypeRpc)
    (hmiss : s.pools.get serviceName = none)
    (hfail :
      ((conf.CallType = K.callTypeLocal ∨ conf.CallType ≠ K.callTypeConsul)
        ∧ env.DialContext
            (Context.WithTimeout ctx (durationMul (toDuration conf.Timeout) Millisecond))
            (env.endpointByBalancer conf) (makeDialOption env.GlobalConf conf)
          = (conn, some e))
      ∨ ((conf.CallType ≠ K.callTypeLocal ∧ conf.CallType = K.callTypeConsul)
        ∧ ∃ schema : String,
            env.generateSchema conf.ServiceName = (schema, none)
            ∧ env.DialContext
                (Context.WithTimeout ctx (durationMul (toDuration conf.Timeout) Millisecond))
                (schema ++ ":///" ++ conf.ServiceName) (makeDialOption env.GlobalConf conf)
              = (conn, some e))) :
    (DialService K env ctx serviceName s).1 = (none, some e)
      ∧ (DialService K env ctx serviceName s).2.pools = s.pools := by
  have h := DialService_miss K env ctx serviceName s conf hconf hproto hmiss
  rcases hfail with ⟨hsel, hd⟩ | ⟨⟨hnl, hc⟩, schema, hg, hd⟩
  · have hsame : (if conf.CallType = K.callTypeLocal then
          dialWithLocal env ctx conf (makeDialOption env.GlobalConf conf) s
        else if conf.CallType = K.callTypeConsul then
          dialWithConsul env ctx conf (makeDialOption env.GlobalConf conf) s
        else dialWithLocal env ctx conf (makeDialOption env.GlobalConf conf) s)
        = dialWithLocal env ctx conf (makeDialOption env.GlobalConf conf) s := by
      rcases hsel with hl | hnc
      · rw [if_pos hl]
      · by_cases hl : conf.CallType = K.callTypeLocal
        · rw [if_pos hl]
        · rw [if_neg hl, if_neg hnc]
    rw [hsame, dialWithLocal_err env ctx conf _ s conn e hd] at h
    rw [h]
    simp [storeDialed]
  · rw [if_neg hnl, if_pos hc, dialWithConsul_err env ctx conf _ s schema conn e hg hd] at h
    rw [h]
    simp [storeDialed]

theorem DialService_dial_failure_witness :
    (DialService exConsts exEnv exCtx "down" exUserState).1
        = (none, some { msg := "connection refused" })
      ∧ (DialService exConsts exEnv exCtx "down" exUserState).2.pools = exUserState.pools :=
  DialService_dial_failure exConsts exEnv exCtx "down" exUserState exDownConf
    (some { id := 9 }) { msg := "connection refused" } (by decide) (by decide) (by decide)
    (Or.inl ⟨Or.inl (by decide), by decide⟩)

/-- C6: for a valid config of call type consul (the two call-type constants being
distinct) and a state whose cache has no connection for the service name, if
`generateSchema` returns the error `e`, then `DialService` returns a nil connection
together with that resolver-initialisation error `e`, the events of the call are
the entry into `dialWithConsul`, the `generateSchema` call and the log line, so
`grpc.DialContext` is not called, and the `pools` map is the map before the call. -/
theorem DialService_resolver_init_failed {PT CT : Type} [DecidableEq PT] [DecidableEq CT]
    (K : Consts PT CT) (env : Env PT CT) (ctx : Context) (serviceName : String)
    (s : State PT CT) (conf : clientConfig PT CT) (schema : String) (e : GoError)
    (hconf : env.getClientConfig serviceName = some conf)
    (hproto : conf.ProtoType = K.protoTypeRpc)
    (hmiss : s.pools.get serviceName = none)
    (hdistinct : K.callTypeLocal ≠ K.callTypeConsul)
    (hconsul : conf.CallType = K.callTypeConsul)
    (hschema : env.generateSchema conf.ServiceName = (schema, some e)) :
    (DialService K env ctx serviceName s).1 = (none, some e)
      ∧ (DialService K env ctx serviceName s).2.pools = s.pools
      ∧ State.since s (DialService K env ctx serviceName s).2
          = [ Event.dialWithConsul conf (makeDialOption env.GlobalConf conf),
              Event.generateSchema conf.ServiceName,
              Event.Errorf ("dialWithConsul, init consul resolver error: " ++ e.msg) ]
      ∧ (State.since s (DialService K env ctx serviceName s).2).countP Event.isDialContext = 0 := by
  have hnl : conf.CallType ≠ K.callTypeLocal := by
    rw [hconsul]; exact fun h => hdistinct h.symm
  have h := DialService_miss K env ctx serviceName s conf hconf hproto hmiss
  rw [if_neg hnl, if_pos hconsul, dialWithConsul_schema_err env ctx conf _ s schema e hschema] at h
  have hsince : State.since s (DialService K env ctx serviceName s).2
      = [ Event.dialWithConsul conf (makeDialOption env.GlobalConf conf),
          Event.generateSchema conf.ServiceName,
          Event.Errorf ("dialWithConsul, init consul resolver error: " ++ e.msg) ] := by
    apply State.since_append
    rw [h]
    simp [storeDialed]
  refine ⟨by rw [h]; simp [storeDialed], by rw [h]; simp [storeDialed], hsince, ?_⟩
  rw [hsince]
  simp [Event.isDialContext]

theorem DialService_resolver_init_failed_witness :
    (DialService exConsts exEnv exCtx "order" exUserState).1
        = (none, some { msg := "consul agent unreachable" })
      ∧ (DialService exConsts exEnv exCtx "order" exUserState).2.pools = exUserState.pools :=
  have h := DialService_resolver_init_failed exConsts exEnv exCtx "order" exUserState
    exOrderConf "" { msg := "consul agent unreachable" } (by decide) (by decide) (by decide)
    (by decide) (by decide) (by decide)
  ⟨h.1, h.2.1⟩

/-! ## Strategy dispatch -/

/-- C7: on a cache miss with a valid config (the two call-type constants being
distinct), a config of call type `callTypeConsul` is dialed by `dialWithConsul`,
entered once with the config and the options of `makeDialOption`, and
`dialWithLocal` is not entered; a config of call type `callTypeLocal` is dialed by
`dialWithLocal` in the same way; and a config whose call type is neither is dialed
by `dialWithLocal` too, and then `DialService` returns the same result, leaves
the same cache, builds the same options and records the same events after the
entry into `dialWithLocal` as it does for the config that differs only in having
call type `callTypeLocal`, the collaborators answering alike. -/
theorem DialService_dispatch {PT CT : Type} [DecidableEq PT] [DecidableEq CT]
    (K : Consts PT CT) (env : Env PT CT) (ctx : Context) (serviceName : String)
    (s : State PT CT) (conf : clientConfig PT CT)
    (hconf : env.getClientConfig serviceName = some conf)
    (hproto : conf.ProtoType = K.protoTypeRpc)
    (hmiss : s.pools.get serviceName = none)
    (hdistinct : K.callTypeLocal ≠ K.callTypeConsul) :
    (conf.CallType = K.callTypeConsul →
        DialService K env ctx serviceName s
          = storeDialed serviceName
              (dialWithConsul env ctx conf (makeDialOption env.GlobalConf conf) s)
        ∧ (State.since s (DialService K env ctx serviceName s).2).head?
            = some (Event.dialWithConsul conf (makeDialOption env.GlobalConf conf))
        ∧ (State.since s (DialService K env ctx serviceName s).2).countP
            Event.isDialWithConsul = 1
        ∧ (State.since s (DialService K env ctx serviceName s).2).countP
            Event.isDialWithLocal = 0)
    ∧ (conf.CallType = K.callTypeLocal →
        DialService K env ctx serviceName s
          = storeDialed serviceName
              (dialWithLocal env ctx conf (makeDialOption env.GlobalConf conf) s)
        ∧ (State.since s (DialService K env ctx serviceName s).2).head?
            = some (Event.dialWithLocal conf (makeDialOption env.GlobalConf conf))
        ∧ (State.since s (DialService K env ctx serviceName s).2).countP
            Event.isDialWithLocal = 1
        ∧ (State.since s (DialService K env ctx serviceName s).2).countP
            Event.isDialWithConsul = 0)
    ∧ (conf.CallType ≠ K.callTypeLocal → conf.CallType ≠ K.callTypeConsul →
        (DialService K env ctx serviceName s
          = storeDialed serviceName
              (dialWithLocal env ctx conf (makeDialOption env.GlobalConf conf) s)
        ∧ (State.since s (DialService K env ctx serviceName s).2).head?
            = some (Event.dialWithLocal conf (makeDialOption env.GlobalConf conf))
        ∧ (State.since s (DialService K env ctx serviceName s).2).countP
            Event.isDialWithLocal = 1
        ∧ (State.since s (DialService K env ctx serviceName s).2).countP
            Event.isDialWithConsul = 0)
        ∧ ∀ env' : Env PT CT,
            env'.getClientConfig serviceName = some { conf with CallType := K.callTypeLocal } →
            env'.GlobalConf = env.GlobalConf →
            env'.DialContext = env.DialContext →
            env'.endpointByBalancer { conf with CallType := K.callTypeLocal }
              = env.endpointByBalancer conf →
            (DialService K env' ctx serviceName s).1 = (DialService K env ctx serviceName s).1
            ∧ (DialService K env' ctx serviceName s).2.pools
                = (DialService K env ctx serviceName s).2.pools
            ∧ makeDialOption env'.GlobalConf { conf with CallType := K.callTypeLocal }
                = makeDialOption env.GlobalConf conf
            ∧ (State.since s (DialService K env' ctx serviceName s).2).head?
                = some (Event.dialWithLocal { conf with CallType := K.callTypeLocal }
                    (makeDialOption env.GlobalConf conf))
            ∧ (State.since s (DialService K env' ctx serviceName s).2).tail
                = (State.since s (DialService K env ctx serviceName s).2).tail) := by
  have h := DialService_miss K env ctx serviceName s conf hconf hproto hmiss
  refine ⟨?_, ?_, ?_⟩
  · intro hc
    have hnl : conf.CallType ≠ K.callTypeLocal := by
      rw [hc]; exact fun h => hdistinct h.symm
    rw [if_neg hnl, if_pos hc] at h
    rw [h]
    exact ⟨rfl, dialWithConsul_entered env ctx conf _ s serviceName⟩
  · intro hl
    rw [if_pos hl] at h
    rw [h]
    exact ⟨rfl, dialWithLocal_entered env ctx conf _ s serviceName⟩
  · intro hnl hnc
    rw [if_neg hnl, if_neg hnc] at h
    refine ⟨by rw [h]; exact ⟨rfl, dialWithLocal_entered env ctx conf _ s serviceName⟩, ?_⟩
    intro env' hconf' hG hD hE
    have h' := DialService_miss K env' ctx serviceName s
      { conf with CallType := K.callTypeLocal } hconf' hproto hmiss
    rw [if_pos rfl, makeDialOption_callType, hG] at h'
    obtain ⟨c1, c2, c3⟩ := dialWithLocal_congr env env' ctx conf
      { conf with CallType := K.callTypeLocal } (makeDialOption env.GlobalConf conf) s rfl hE hD
    obtain ⟨d1, d2⟩ := storeDialed_congr serviceName _ _ c1 c2
    have e' := dialWithLocal_entered env' ctx { conf with CallType := K.callTypeLocal }
      (makeDialOption env.GlobalConf conf) s serviceName
    rw [h, h']
    refine ⟨d1, d2, by rw [makeDialOption_callType, hG], e'.1, ?_⟩
    simp only [State.since, storeDialed_trace] at c3 ⊢
    exact c3

theorem DialService_dispatch_witness :
    (DialService exConsts exEnvLocal exCtx "legacy" (State.init String String)).1
        = (DialService exConsts exEnv exCtx "legacy" (State.init String String)).1
      ∧ (State.since (State.init String String)
          (DialService exConsts exEnv exCtx "legacy" (State.init String String)).2).head?
        = some (Event.dialWithLocal exLegacyConf (makeDialOption exEnv.GlobalConf exLegacyConf)) :=
  have h := (DialService_dispatch exConsts exEnv exCtx "legacy" (State.init String String)
    exLegacyConf (by decide) (by decide) rfl (by decide)).2.2 (by decide) (by decide)
  ⟨(h.2 exEnvLocal (by decide) rfl rfl (by decide)).1, h.1.2.1⟩

/-! ## The dial options -/

/-- C8, as the code has it: for every config and every setting of the two
toggles, `makeDialOption` returns the five options below, so the interceptors it
puts into the dial options are exactly the retry interceptor (always, through
`WithUnaryInterceptor` and `WithStreamInterceptor`), the metrics interceptor exactly
when `Metrics.Enabled` and the tracing interceptor exactly when `Trace.Enabled`
(both through the chain options), the same kinds for unary and for stream calls;
in the chain grpc runs for these options their order is retry, then metrics, then
tracing. With metrics on, tracing off, `RetryTimes = 3` and `RetryTimeout = 500`
the chain is the retry interceptor followed by the metrics interceptor, and holds
no tracing interceptor. -/
theorem makeDialOption_interceptors {PT CT : Type} (G : GlobalConfig)
    (conf : clientConfig PT CT) :
    makeDialOption G conf
        = [ DialOption.WithChainStreamInterceptor
              ((if G.Metrics.Enabled then [StreamClientInterceptor.prometheus] else [])
                ++ (if G.Trace.Enabled then [StreamClientInterceptor.opentracing] else [])),
            DialOption.WithChainUnaryInterceptor
              ((if G.Metrics.Enabled then [UnaryClientInterceptor.prometheus] else [])
                ++ (if G.Trace.Enabled then [UnaryClientInterceptor.opentracing] else [])),
            DialOption.WithStreamInterceptor
              (StreamClientInterceptor.retry
                [ CallOption.WithMax conf.RetryTimes,
                  CallOption.WithPerRetryTimeout (wrapInt64 (conf.RetryTimeout * 1000000)) ]),
            DialOption.WithUnaryInterceptor
              (UnaryClientInterceptor.retry
                [ CallOption.WithMax conf.RetryTimes,
                  CallOption.WithPerRetryTimeout (wrapInt64 (conf.RetryTimeout * 1000000)) ]),
            DialOption.WithInsecure ]
      ∧ (∀ i : UnaryClientInterceptor,
          i ∈ chainUnaryClientInterceptors (applyDialOptions (makeDialOption G conf))
            ↔ (i = UnaryClientInterceptor.prometheus ∧ G.Metrics.Enabled = true)
              ∨ (i = UnaryClientInterceptor.opentracing ∧ G.Trace.Enabled = true)
              ∨ i = UnaryClientInterceptor.retry
                    [ CallOption.WithMax conf.RetryTimes,
                      CallOption.WithPerRetryTimeout
                        (wrapInt64 (conf.RetryTimeout * 1000000)) ])
      ∧ (∀ i : StreamClientInterceptor,
          i ∈ chainStreamClientInterceptors (applyDialOptions (makeDialOption G conf))
            ↔ (i = StreamClientInterceptor.prometheus ∧ G.Metrics.Enabled = true)
              ∨ (i = StreamClientInterceptor.opentracing ∧ G.Trace.Enabled = true)
              ∨ i = StreamClientInterceptor.retry
                    [ CallOption.WithMax conf.RetryTimes,
                      CallOption.WithPerRetryTimeout
                        (wrapInt64 (conf.RetryTimeout * 1000000)) ])
      ∧ (chainUnaryClientInterceptors (applyDialOptions (makeDialOption G conf))).map
          UnaryClientInterceptor.kind
        = InterceptorKind.retry
            :: ((if G.Metrics.Enabled then [InterceptorKind.metrics] else [])
                ++ (if G.Trace.Enabled then [InterceptorKind.tracing] else []))
      ∧ (chainStreamClientInterceptors (applyDialOptions (makeDialOption G conf))).map
          StreamClientInterceptor.kind
        = (chainUnaryClientInterceptors (applyDialOptions (makeDialOption G conf))).map
            UnaryClientInterceptor.kind
      ∧ (∀ (name : String) (pt : PT) (ct : CT) (timeout : Int),
          chainUnaryClientInterceptors (applyDialOptions
              (makeDialOption { Metrics := { Enabled := true }, Trace := { Enabled := false } }
                ({ ServiceName := name, ProtoType := pt, CallType := ct, Timeout := timeout,
                   RetryTimes := 3, RetryTimeout := 500 } : clientConfig PT CT)))
            = [ UnaryClientInterceptor.retry
                  [CallOption.WithMax 3, CallOption.WithPerRetryTimeout 500000000],
                UnaryClientInterceptor.prometheus ]
          ∧ chainStreamClientInterceptors (applyDialOptions
              (makeDialOption { Metrics := { Enabled := true }, Trace := { Enabled := false } }
                ({ ServiceName := name, ProtoType := pt, CallType := ct, Timeout := timeout,
                   RetryTimes := 3, RetryTimeout := 500 } : clientConfig PT CT)))
            = [ StreamClientInterceptor.retry
                  [CallOption.WithMax 3, CallOption.WithPerRetryTimeout 500000000],
                StreamClientInterceptor.prometheus ]) := by
  have hw : wrapInt64 500000000 = 500000000 := by
    unfold wrapInt64; norm_num
  rcases G with ⟨⟨m⟩, ⟨t⟩⟩
  refine ⟨?_, ?_, ?_, ?_, ?_, ?_⟩
  · cases m <;> cases t <;> simp [makeDialOption, retryTimeout_duration]
  · intro i
    cases m <;> cases t <;>
      simp [makeDialOption, applyDialOptions, DialOption.apply, defaultDialOptions,
        chainUnaryClientInterceptors, retryTimeout_duration] <;> tauto
  · intro i
    cases m <;> cases t <;>
      simp [makeDialOption, applyDialOptions, DialOption.apply, defaultDialOptions,
        chainStreamClientInterceptors, retryTimeout_duration] <;> tauto
  · cases m <;> cases t <;>
      simp [makeDialOption, applyDialOptions, DialOption.apply, defaultDialOptions,
        chainUnaryClientInterceptors, UnaryClientInterceptor.kind]
  · cases m <;> cases t <;>
      simp [makeDialOption, applyDialOptions, DialOption.apply, defaultDialOptions,
        chainUnaryClientInterceptors, chainStreamClientInterceptors,
        UnaryClientInterceptor.kind, StreamClientInterceptor.kind]
  · intro name pt ct timeout
    simp [makeDialOption, applyDialOptions, DialOption.apply, defaultDialOptions,
      chainUnaryClientInterceptors, chainStreamClientInterceptors, retryTimeout_duration, hw]

/-- C8 as stated fails: with metrics on, tracing off, `RetryTimes = 3` and
`RetryTimeout = 500`, the chain grpc runs for the options of `makeDialOption` is
the retry interceptor followed by the metrics interceptor, for unary and for
stream calls, not the metrics interceptor followed by the retry interceptor. -/
theorem makeDialOption_metrics_not_before_retry :
    chainUnaryClientInterceptors (applyDialOptions (makeDialOption exEnv.GlobalConf exUserConf))
        = [ UnaryClientInterceptor.retry
              [CallOption.WithMax 3, CallOption.WithPerRetryTimeout 500000000],
            UnaryClientInterceptor.prometheus ]
      ∧ chainStreamClientInterceptors
          (applyDialOptions (makeDialOption exEnv.GlobalConf exUserConf))
        = [ StreamClientInterceptor.retry
              [CallOption.WithMax 3, CallOption.WithPerRetryTimeout 500000000],
            StreamClientInterceptor.prometheus ]
      ∧ chainUnaryClientInterceptors
          (applyDialOptions (makeDialOption exEnv.GlobalConf exUserConf))
        ≠ [ UnaryClientInterceptor.prometheus,
            UnaryClientInterceptor.retry
              [CallOption.WithMax 3, CallOption.WithPerRetryTimeout 500000000] ]
      ∧ chainStreamClientInterceptors
          (applyDialOptions (makeDialOption exEnv.GlobalConf exUserConf))
        ≠ [ StreamClientInterceptor.prometheus,
            StreamClientInterceptor.retry
              [CallOption.WithMax 3, CallOption.WithPerRetryTimeout 500000000] ] := by
  refine ⟨?_, ?_, ?_, ?_⟩ <;> decide

/-- C9, as the code has it: in the chain grpc runs for the options of
`makeDialOption`, the retry interceptor, set by `WithUnaryInterceptor` and
`WithStreamInterceptor`, is the outermost unary and the outermost stream
interceptor for every toggle setting, in front of the interceptors given to
`WithChainUnaryInterceptor` and `WithChainStreamInterceptor`: outermost to
innermost the order is retry, then metrics when enabled, then tracing when
enabled. -/
theorem makeDialOption_chain_order {PT CT : Type} (G : GlobalConfig)
    (conf : clientConfig PT CT) :
    (applyDialOptions (makeDialOption G conf)).unaryInt
        = some (UnaryClientInterceptor.retry
            [ CallOption.WithMax conf.RetryTimes,
              CallOption.WithPerRetryTimeout (wrapInt64 (conf.RetryTimeout * 1000000)) ])
      ∧ (applyDialOptions (makeDialOption G conf)).chainUnaryInts
        = (if G.Metrics.Enabled then [UnaryClientInterceptor.prometheus] else [])
          ++ (if G.Trace.Enabled then [UnaryClientInterceptor.opentracing] else [])
      ∧ chainUnaryClientInterceptors (applyDialOptions (makeDialOption G conf))
        = UnaryClientInterceptor.retry
            [ CallOption.WithMax conf.RetryTimes,
              CallOption.WithPerRetryTimeout (wrapInt64 (conf.RetryTimeout * 1000000)) ]
          :: ((if G.Metrics.Enabled then [UnaryClientInterceptor.prometheus] else [])
              ++ (if G.Trace.Enabled then [UnaryClientInterceptor.opentracing] else []))
      ∧ chainStreamClientInterceptors (applyDialOptions (makeDialOption G conf))
        = StreamClientInterceptor.retry
            [ CallOption.WithMax conf.RetryTimes,
              CallOption.WithPerRetryTimeout (wrapInt64 (conf.RetryTimeout * 1000000)) ]
          :: ((if G.Metrics.Enabled then [StreamClientInterceptor.prometheus] else [])
              ++ (if G.Trace.Enabled then [StreamClientInterceptor.opentracing] else [])) := by
  rcases G with ⟨⟨m⟩, ⟨t⟩⟩
  cases m <;> cases t <;>
    simp [makeDialOption, applyDialOptions, DialOption.apply, defaultDialOptions,
      chainUnaryClientInterceptors, chainStreamClientInterceptors, retryTimeout_duration]

/-- C9 as stated fails: with both toggles on, the chain grpc runs for the options
of `makeDialOption` is retry, metrics, tracing from the outside in, for unary and
for stream calls, so it is not metrics, tracing, retry and its innermost
interceptor is the tracing one, not the retry one. -/
theorem makeDialOption_chain_retry_not_innermost :
    (chainUnaryClientInterceptors (applyDialOptions (makeDialOption exAllOn exUserConf))).map
        UnaryClientInterceptor.kind
        = [InterceptorKind.retry, InterceptorKind.metrics, InterceptorKind.tracing]
      ∧ (chainStreamClientInterceptors (applyDialOptions (makeDialOption exAllOn exUserConf))).map
        StreamClientInterceptor.kind
        = [InterceptorKind.retry, InterceptorKind.metrics, InterceptorKind.tracing]
      ∧ (chainUnaryClientInterceptors (applyDialOptions (makeDialOption exAllOn exUserConf))).map
        UnaryClientInterceptor.kind
        ≠ [InterceptorKind.metrics, InterceptorKind.tracing, InterceptorKind.retry]
      ∧ ((chainUnaryClientInterceptors
          (applyDialOptions (makeDialOption exAllOn exUserConf))).map
            UnaryClientInterceptor.kind).getLast? ≠ some InterceptorKind.retry
      ∧ ((chainStreamClientInterceptors
          (applyDialOptions (makeDialOption exAllOn exUserConf))).map
            StreamClientInterceptor.kind).getLast? ≠ some InterceptorKind.retry := by
  refine ⟨?_, ?_, ?_, ?_, ?_⟩ <;> decide

/-- C10: for every config and every toggle setting, the unary and the stream retry
interceptor built by `makeDialOption` run with maximum attempt count
`conf.RetryTimes` and per-attempt timeout `conf.RetryTimeout * 1000000` nanoseconds
in `int64` arithmetic, and any other toggle setting, service name, protocol kind,
call type and dial timeout gives the same retry settings. -/
theorem makeDialOption_retry_settings {PT CT : Type} (G : GlobalConfig)
    (conf : clientConfig PT CT) :
    (unaryInterceptorsOf (makeDialOption G conf)).filterMap UnaryClientInterceptor.retrySettings
        = [{ max := conf.RetryTimes,
             perCallTimeout := wrapInt64 (conf.RetryTimeout * 1000000) }]
      ∧ (streamInterceptorsOf (makeDialOption G conf)).filterMap
          StreamClientInterceptor.retrySettings
        = [{ max := conf.RetryTimes,
             perCallTimeout := wrapInt64 (conf.RetryTimeout * 1000000) }]
      ∧ ∀ (G' : GlobalConfig) (name : String) (pt : PT) (ct : CT) (timeout : Int),
          (unaryInterceptorsOf
              (makeDialOption G'
                ({ ServiceName := name, ProtoType := pt, CallType := ct, Timeout := timeout,
                   RetryTimes := conf.RetryTimes, RetryTimeout := conf.RetryTimeout }
                  : clientConfig PT CT))).filterMap UnaryClientInterceptor.retrySettings
            = (unaryInterceptorsOf (makeDialOption G conf)).filterMap
                UnaryClientInterceptor.retrySettings
          ∧ (streamInterceptorsOf
              (makeDialOption G'
                ({ ServiceName := name, ProtoType := pt, CallType := ct, Timeout := timeout,
                   RetryTimes := conf.RetryTimes, RetryTimeout := conf.RetryTimeout }
                  : clientConfig PT CT))).filterMap StreamClientInterceptor.retrySettings
            = (streamInterceptorsOf (makeDialOption G conf)).filterMap
                StreamClientInterceptor.retrySettings := by
  have key : ∀ (H : GlobalConfig) (c : clientConfig PT CT),
      (unaryInterceptorsOf (makeDialOption H c)).filterMap UnaryClientInterceptor.retrySettings
          = [{ max := c.RetryTimes, perCallTimeout := wrapInt64 (c.RetryTimeout * 1000000) }]
        ∧ (streamInterceptorsOf (makeDialOption H c)).filterMap
            StreamClientInterceptor.retrySettings
          = [{ max := c.RetryTimes, perCallTimeout := wrapInt64 (c.RetryTimeout * 1000000) }] := by
    intro H c
    rcases H with ⟨⟨m⟩, ⟨t⟩⟩
    cases m <;> cases t <;>
      simp [makeDialOption, unaryInterceptorsOf, streamInterceptorsOf,
        UnaryClientInterceptor.retrySettings, StreamClientInterceptor.retrySettings,
        reuseOrNewWithCallOptions, CallOption.applyTo, defaultOptions, retryTimeout_duration]
  refine ⟨(key G conf).1, (key G conf).2, ?_⟩
  intro G' name pt ct timeout
  rw [(key G conf).1, (key G conf).2]
  exact key G' _

end Rpc
